import Mathlib

/-
  Verification development for the jrpc2 repository: a JSON-RPC 2.0
  client/server bound to HTTP transport.

  Server side (src/http.go): Service.ServeHTTP and Service.WriteRespose.
  Client side (src/unnamed/part_000): Config.Call.

  The embedding translates the Go control flow into pure Lean functions.
  External effects (body read, hooks, the single HTTP exchange) are
  represented by explicit outcome values supplied as input, and the HTTP
  response writer is modelled as a trace of events in the order the Go
  code performs them.  Definitions that correspond to repository code not
  present under src/ carry a doc comment starting with
  "Modelled from the spec:".
-/

set_option autoImplicit false

namespace Jrpc2

/-- JSON values, as relevant to the wire format.  Numbers are modelled as
integers; no claim computes with numeric payloads. -/
inductive Json where
  | null
  | bool (b : Bool)
  | num (n : Int)
  | str (s : String)
  | arr (elems : List Json)
  | obj (fields : List (String × Json))

/-- The name Go encoding/json reports in an UnmarshalTypeError Value field
for a JSON value of the given shape. -/
def Json.goTypeName : Json → String
  | Json.null => "null"
  | Json.bool _ => "bool"
  | Json.num _ => "number"
  | Json.str _ => "string"
  | Json.arr _ => "array"
  | Json.obj _ => "object"

mutual

/-- Rendering of a JSON value to text, used by the response serializer.
String escaping is not modelled; no claim depends on body text details. -/
def renderJson : Json → String
  | Json.null => "null"
  | Json.bool true => "true"
  | Json.bool false => "false"
  | Json.num n => toString n
  | Json.str s => "\"" ++ s ++ "\""
  | Json.arr elems => "[" ++ renderJsonList elems ++ "]"
  | Json.obj fields => "\x7b" ++ renderJsonFields fields ++ "\x7d"

def renderJsonList : List Json → String
  | [] => ""
  | [j] => renderJson j
  | j :: rest => renderJson j ++ "," ++ renderJsonList rest

def renderJsonFields : List (String × Json) → String
  | [] => ""
  | [kv] => "\"" ++ kv.1 ++ "\":" ++ renderJson kv.2
  | kv :: rest => "\"" ++ kv.1 ++ "\":" ++ renderJson kv.2 ++ "," ++ renderJsonFields rest

end

/-- JSON-RPC error object (code, message, data).  The data member is an
interface value in Go; every use in the dispatcher stores a string. -/
structure ErrorObject where
  Code : Int
  Message : String
  Data : String

/-- Modelled from the spec: standard JSON-RPC parse error code. -/
def ParseErrorCode : Int := -32700

/-- Modelled from the spec: parse error message. -/
def ParseErrorMessage : String := "Parse error"

/-- Modelled from the spec: standard invalid-request error code. -/
def InvalidRequestCode : Int := -32600

/-- Modelled from the spec: invalid-request error message. -/
def InvalidRequestMessage : String := "Invalid Request"

/-- Modelled from the spec: standard method-not-found error code. -/
def MethodNotFoundCode : Int := -32601

/-- Modelled from the spec: method-not-found error message. -/
def MethodNotFoundMessage : String := "Method not found"

/-- Modelled from the spec: batch rejection code, from the
implementation-reserved range.  The spec fixes only that it is distinct
from the standard codes; the exact reserved value is not given. -/
def NotImplementedCode : Int := -32000

/-- Modelled from the spec: batch rejection message. -/
def NotImplementedMessage : String := "Not Implemented"

/-- Modelled from the spec: code for the dedicated invalid-method error
(method member present with a non-string type), from the
implementation-reserved range, distinct from the other codes. -/
def InvalidMethodCode : Int := -32002

/-- Modelled from the spec: invalid-method error message. -/
def InvalidMethodMessage : String := "Invalid Method"

/-- Request envelope, following the Go RequestObject struct: jsonrpc and
method strings, raw params, and a raw id that is absent for
notifications. -/
structure RequestObject where
  Jsonrpc : String := ""
  Method : String := ""
  Params : Json := Json.null
  ID : Option Json := none

/-- Outcome of decoding a request body, mirroring what the dispatcher can
observe from Go json.Unmarshal: success, an UnmarshalTypeError carrying
the offending JSON type name and the struct field, or any other decode
failure with its message. -/
inductive DecodeResult where
  | ok (reqObj : RequestObject)
  | typeErr (value : String) (field : String)
  | invalidJson (msg : String)

/-- Keep the first decode error, as the Go decoder does (saveError keeps
only the first error and continues scanning). -/
def saveErr (old : Option (String × String)) (vf : String × Json) : Option (String × String) :=
  match old with
  | some e => some e
  | none => some (vf.2.goTypeName, vf.1)

/-- One step of decoding an object field into RequestObject, mirroring Go
encoding/json: string fields accept strings (null is a no-op), raw-message
fields accept anything, a null id leaves the id pointer nil, unknown keys
are ignored, duplicate keys decode last-wins.  Field names are matched
exactly; Go also falls back to a case-insensitive match, which no claim
exercises. -/
def assignField (st : RequestObject × Option (String × String)) (kv : String × Json) :
    RequestObject × Option (String × String) :=
  match kv with
  | ("jsonrpc", Json.str s) => ({ st.1 with Jsonrpc := s }, st.2)
  | ("jsonrpc", Json.null) => st
  | ("jsonrpc", v) => (st.1, saveErr st.2 ("jsonrpc", v))
  | ("method", Json.str s) => ({ st.1 with Method := s }, st.2)
  | ("method", Json.null) => st
  | ("method", v) => (st.1, saveErr st.2 ("method", v))
  | ("params", v) => ({ st.1 with Params := v }, st.2)
  | ("id", Json.null) => ({ st.1 with ID := none }, st.2)
  | ("id", v) => ({ st.1 with ID := some v }, st.2)
  | _ => st

/-- Decoding a parsed JSON value into RequestObject, mirroring Go
json.Unmarshal into a struct pointer: a top-level array or any other
non-object value yields an UnmarshalTypeError naming that JSON type with
an empty field; an object is decoded field by field, reporting the first
field type error.  A top-level null leaves the struct pointer nil in Go
(later field access would fault); it is modelled as the zero value and is
outside the scope of every claim. -/
def unmarshalRequest : Json → DecodeResult
  | Json.obj fields =>
      let st := fields.foldl assignField (({} : RequestObject), (none : Option (String × String)))
      match st.2 with
      | some vf => DecodeResult.typeErr vf.1 vf.2
      | none => DecodeResult.ok st.1
  | Json.null => DecodeResult.ok {}
  | j => DecodeResult.typeErr j.goTypeName ""

/-- Message text of a generic UnmarshalTypeError, standing in for the Go
error string stored in the parse error data member. -/
def unmarshalTypeErrorData (value field : String) : String :=
  "json: cannot unmarshal " ++ value ++ " into field " ++ field

/-- A request body as seen after the transport read: either text that is
not valid JSON (with the decode error message), or a parsed JSON value. -/
inductive Body where
  | invalid (msg : String)
  | value (j : Json)

/-- The request-body decode step of the dispatcher. -/
def decodeBody : Body → DecodeResult
  | Body.invalid msg => DecodeResult.invalidJson msg
  | Body.value j => unmarshalRequest j

/-- Outcome of a hook invocation that failed: an optional custom HTTP
status code carried by the hook error. -/
structure HookError where
  code : Option Nat

/-- Modelled from the spec: a hook failure aborts with an HTTP status the
hook itself supplies, falling back to 500. -/
def getHTTPCodeFromHookError (e : HookError) : Nat := e.code.getD 500

/-- Response envelope, following the Go ResponseObject struct.  The
statusCode, notification flag and headers members are transport-only and
never serialized.  The Go pointer to the originating http.Request is a
transport handle and is not modelled. -/
structure ResponseObject where
  Jsonrpc : String := "2.0"
  Result : Option Json := none
  Error : Option ErrorObject := none
  ID : Option Json := none
  statusCode : Nat := 200
  notification : Bool := false
  headers : List (String × String) := []

/-- Modelled from the spec: the default response object carries protocol
version 2.0, HTTP status 200, no id, and is not a notification. -/
def DefaultResponseObject : ResponseObject := {}

/-- Rendering of an error object for the serialized envelope. -/
def renderError (e : ErrorObject) : String :=
  "\x7b\"code\":" ++ toString e.Code ++ ",\"message\":\"" ++ e.Message
    ++ "\",\"data\":\"" ++ e.Data ++ "\"\x7d"

/-- Modelled from the spec: deterministic serialization of the response
envelope; the error member is omitted when null, otherwise the result is
serialized. -/
def ResponseObject.Marshal (r : ResponseObject) : String :=
  let core := match r.Error with
    | some e => "\"error\":" ++ renderError e
    | none => "\"result\":" ++ renderJson (r.Result.getD Json.null)
  "\x7b\"jsonrpc\":\"" ++ r.Jsonrpc ++ "\"," ++ core ++ ",\"id\":"
    ++ renderJson (r.ID.getD Json.null) ++ "\x7d"

/-- One effect on the Go http.ResponseWriter, in the order the code
performs them: a header Set, a WriteHeader, or a body Write. -/
inductive HttpEvent where
  | setHeader (name value : String)
  | writeHeader (status : Nat)
  | writeBody (data : String)

/-- The header-Set events for one headers map.  Go map iteration order is
arbitrary; since keys within one map are unique and Set is last-wins, the
effective headers do not depend on the order, and the list order stands in
for one iteration order. -/
def setsOf (hs : List (String × String)) : List HttpEvent :=
  hs.map (fun kv => HttpEvent.setHeader kv.1 kv.2)

/-- Server service value: the static custom response headers, the response
hook (modelled by its outcome as a function of the serialized response
bytes), the method registry behind Service.Call (method and params to a
result or error), and whether the final transport write fails. -/
structure Service where
  headers : List (String × String) := []
  resp : String → Option HookError := fun _ => none
  call : String → Json → Except ErrorObject Json :=
    fun _ _ => Except.error ⟨MethodNotFoundCode, MethodNotFoundMessage, ""⟩
  writeErr : Bool := false

/-- WriteRespose from src/http.go as a trace of writer events: set the
static service headers, then the dynamic response headers; a notification
ends with a bare 204 and no body; otherwise the envelope is serialized,
the response hook may abort with its status code, and finally the
envelope status and body are written (a failing write is followed by the
superfluous 500 header the code sets). -/
def Service.WriteRespose (s : Service) (respObj : ResponseObject) : List HttpEvent :=
  let hs := setsOf s.headers ++ setsOf respObj.headers
  if respObj.notification then
    hs ++ [HttpEvent.writeHeader 204]
  else
    let resp := respObj.Marshal
    match s.resp resp with
    | some e => hs ++ [HttpEvent.writeHeader (getHTTPCodeFromHookError e)]
    | none =>
      if s.writeErr then
        hs ++ [HttpEvent.writeHeader respObj.statusCode, HttpEvent.writeHeader 500]
      else
        hs ++ [HttpEvent.writeHeader respObj.statusCode, HttpEvent.writeBody resp]

/-- The per-request inputs of ServeHTTP that come from the outside world:
the body read outcome, the request hook outcome, the three transport
validation verdicts, and the request body. -/
structure ReqEnv where
  readErr : Option String := none
  reqHookErr : Option HookError := none
  httpVersionOk : Bool := true
  httpMethodOk : Bool := true
  httpHeadersOk : Bool := true
  body : Body

/-- Modelled from the spec: the HTTP protocol version check; on failure it
records a transport-level error on the response and short-circuits. -/
def ResponseObject.ValidateHTTPProtocolVersion (respObj : ResponseObject) (ok : Bool) :
    ResponseObject × Bool :=
  if ok then (respObj, true)
  else ({ respObj with
            statusCode := 505
            Error := some ⟨InvalidRequestCode, InvalidRequestMessage,
              "HTTP protocol version must be 1.1"⟩ }, false)

/-- Modelled from the spec: the HTTP request method check (one write verb,
POST); on failure it records an error and short-circuits. -/
def ResponseObject.ValidateHTTPRequestMethod (respObj : ResponseObject) (ok : Bool) :
    ResponseObject × Bool :=
  if ok then (respObj, true)
  else ({ respObj with
            statusCode := 405
            Error := some ⟨InvalidRequestCode, InvalidRequestMessage,
              "HTTP request method must be POST"⟩ }, false)

/-- Modelled from the spec: the required HTTP headers check (content
type); on failure it records an error and short-circuits. -/
def ResponseObject.ValidateHTTPRequestHeaders (respObj : ResponseObject) (ok : Bool) :
    ResponseObject × Bool :=
  if ok then (respObj, true)
  else ({ respObj with
            statusCode := 400
            Error := some ⟨InvalidRequestCode, InvalidRequestMessage,
              "Content-Type header must be application/json"⟩ }, false)

/-- Modelled from the spec: the JSON-RPC version member must equal the
literal 2.0; on mismatch the response keeps HTTP status 200 and records an
invalid-request error. -/
def ResponseObject.ValidateJSONRPCVersionNumber (respObj : ResponseObject) (version : String) :
    ResponseObject × Bool :=
  if version = "2.0" then (respObj, true)
  else ({ respObj with
          Error := some ⟨InvalidRequestCode, InvalidRequestMessage,
            "jsonrpc request member must be exactly 2.0"⟩ }, false)

/-- Modelled from the spec: id coercion accepts a JSON string or number
(an absent id passes for notifications); any other JSON type fails with an
invalid-request error reporting the unsupported id type. -/
def ConvertIDtoString : Option Json → String × Option ErrorObject
  | none => ("", none)
  | some (Json.str s) => (s, none)
  | some (Json.num n) => (toString n, none)
  | some j => ("", some ⟨InvalidRequestCode, InvalidRequestMessage,
      "ID data type must be string or number, got " ++ j.goTypeName⟩)

/-- How one run of ServeHTTP ends: with a response object handed to
WriteRespose, or with the bare status the request-hook failure path
writes directly. -/
inductive DispatchResult where
  | reply (respObj : ResponseObject)
  | hookAbort (status : Nat)

/-- The validation pipeline of ServeHTTP from src/http.go, one branch per
return statement: body read failure (parse error, HTTP 400); request hook
failure (bare status, no transmission); the three transport validations;
body decode with the type-switch classification (top-level array to the
batch rejection, method field type error to the invalid-method error,
anything else to the generic parse error); JSON-RPC version check; id
coercion; id-or-notification marking; registry invocation. -/
def Service.serveDispatch (s : Service) (env : ReqEnv) : DispatchResult :=
  let r0 := DefaultResponseObject
  match env.readErr with
  | some msg =>
      DispatchResult.reply { r0 with
        statusCode := 400
        Error := some ⟨ParseErrorCode, ParseErrorMessage, msg⟩ }
  | none =>
    match env.reqHookErr with
    | some e => DispatchResult.hookAbort (getHTTPCodeFromHookError e)
    | none =>
      let p1 := r0.ValidateHTTPProtocolVersion env.httpVersionOk
      if p1.2 = false then DispatchResult.reply p1.1 else
      let p2 := p1.1.ValidateHTTPRequestMethod env.httpMethodOk
      if p2.2 = false then DispatchResult.reply p2.1 else
      let p3 := p2.1.ValidateHTTPRequestHeaders env.httpHeadersOk
      if p3.2 = false then DispatchResult.reply p3.1 else
      match decodeBody env.body with
      | DecodeResult.invalidJson msg =>
          DispatchResult.reply { p3.1 with
            Error := some ⟨ParseErrorCode, ParseErrorMessage, msg⟩ }
      | DecodeResult.typeErr v f =>
          if v = "array" then
            DispatchResult.reply { p3.1 with
              Error := some ⟨NotImplementedCode, NotImplementedMessage,
                "batch requests not supported"⟩ }
          else if f = "method" then
            DispatchResult.reply { p3.1 with
              Error := some ⟨InvalidMethodCode, InvalidMethodMessage,
                "method data type must be string"⟩ }
          else
            DispatchResult.reply { p3.1 with
              Error := some ⟨ParseErrorCode, ParseErrorMessage,
                unmarshalTypeErrorData v f⟩ }
      | DecodeResult.ok reqObj =>
          let p4 := p3.1.ValidateJSONRPCVersionNumber reqObj.Jsonrpc
          if p4.2 = false then DispatchResult.reply p4.1 else
          match (ConvertIDtoString reqObj.ID).2 with
          | some errObj => DispatchResult.reply { p4.1 with Error := some errObj }
          | none =>
            let r5 := match reqObj.ID with
              | some v => { p4.1 with ID := some v }
              | none => { p4.1 with notification := true }
            match s.call reqObj.Method reqObj.Params with
            | Except.error errObj => DispatchResult.reply { r5 with Error := some errObj }
            | Except.ok result => DispatchResult.reply { r5 with Result := some result }

/-- ServeHTTP as the composition of the dispatch pipeline with response
transmission: every reply goes through WriteRespose; the request-hook
failure writes its bare status directly. -/
def Service.ServeHTTP (s : Service) (env : ReqEnv) : List HttpEvent :=
  match s.serveDispatch env with
  | DispatchResult.reply respObj => s.WriteRespose respObj
  | DispatchResult.hookAbort c => [HttpEvent.writeHeader c]

/-- The HTTP status a client observes: the first WriteHeader of the
trace (later calls are no-ops in Go). -/
def firstStatus : List HttpEvent → Option Nat
  | [] => none
  | HttpEvent.writeHeader c :: _ => some c
  | _ :: rest => firstStatus rest

/-- The effective value of one response header: the last Set before the
first WriteHeader wins; Sets after the status is written have no effect. -/
def headerValue : List HttpEvent → String → Option String
  | [], _ => none
  | HttpEvent.writeHeader _ :: _, _ => none
  | HttpEvent.setHeader k v :: rest, q =>
      match headerValue rest q with
      | some w => some w
      | none => if k = q then some v else none
  | _ :: rest, q => headerValue rest q

/-- The body bytes a client observes: the concatenation of all Writes. -/
def bodyBytes : List HttpEvent → String
  | [] => ""
  | HttpEvent.writeBody d :: rest => d ++ bodyBytes rest
  | _ :: rest => bodyBytes rest

end Jrpc2

namespace Client

/-- Client-side internal error value.  Modelled from the spec: the client
error type can wrap a transport error and carry pairs of observed and
expected HTTP status codes, request ids, and protocol versions. -/
structure InternalErr where
  wrapped : Option String := none
  httpStatusCodes : Option (Nat × Nat) := none
  rpcIDs : Option (String × String) := none
  protocolVersions : Option (String × String) := none

/-- Modelled from the spec: constructor of a fresh internal error,
optionally wrapping an underlying error message. -/
def NewInternalError (wrapped : Option String) : InternalErr :=
  { wrapped := wrapped }

/-- Modelled from the spec: attach the observed and expected HTTP status
codes to an internal error. -/
def InternalErr.SetHTTPStatusCodes (e : InternalErr) (observed expected : Nat) : InternalErr :=
  { e with httpStatusCodes := some (observed, expected) }

/-- Modelled from the spec: attach the observed and expected request ids
to an internal error. -/
def InternalErr.SetRPCIDs (e : InternalErr) (observed expected : String) : InternalErr :=
  { e with rpcIDs := some (observed, expected) }

/-- Modelled from the spec: attach the observed and expected protocol
versions to an internal error. -/
def InternalErr.SetProtocolVersions (e : InternalErr) (observed expected : String) : InternalErr :=
  { e with protocolVersions := some (observed, expected) }

/-- Client request envelope, following the RequestObject built by
getRequestObject in src/unnamed/part_000. -/
structure RequestObject where
  Jsonrpc : String
  Method : String
  Params : Jrpc2.Json
  ID : String

/-- getRequestObject from src/unnamed/part_000: fixed protocol version
2.0 and a fresh unique id.  genUUID is an outside randomness source, so
the generated id is passed in explicitly. -/
def getRequestObject (method : String) (params : Jrpc2.Json) (uuid : String) : RequestObject :=
  { Jsonrpc := "2.0", Method := method, Params := params, ID := uuid }

/-- Client response envelope as decoded from the response body. -/
structure ResponseObject where
  Jsonrpc : String := ""
  Result : Jrpc2.Json := Jrpc2.Json.null
  Error : Option Jrpc2.ErrorObject := none
  ID : String := ""

/-- Outcome of decoding the response body bytes into ResponseObject. -/
inductive RespDecode where
  | fail (msg : String)
  | ok (respObj : ResponseObject)

/-- Outcome of reading the response body bytes. -/
inductive ReadResult where
  | readErr (msg : String)
  | ok (dec : RespDecode)

/-- Outcome of the single HTTP exchange performed by one call: a
transport failure, or a response with its status code and body. -/
inductive HttpResult where
  | doErr (msg : String)
  | response (status : Nat) (body : ReadResult)

/-- What a call returns on failure: an internal client error, or the
error object supplied by the server envelope. -/
inductive CallError where
  | internal (e : InternalErr)
  | rpc (e : Jrpc2.ErrorObject)

/-- Lower-casing of an ASCII character code. -/
def lowerCode (n : Nat) : Nat := if 65 ≤ n ∧ n ≤ 90 then n + 32 else n

/-- Case-insensitive equality of character lists by code. -/
def eqFoldChars : List Char → List Char → Bool
  | [], [] => true
  | a :: as, b :: bs => (lowerCode a.toNat == lowerCode b.toNat) && eqFoldChars as bs
  | _, _ => false

/-- Case-insensitive string equality, modelling strings.EqualFold at the
ASCII level used by the ids and version strings of this protocol. -/
def eqFold (a b : String) : Bool := eqFoldChars a.data b.data

/-- Client configuration: target URI, static headers, compression toggle
and optional unix-socket path.  The timeout and the HTTP client are part
of the outside transport. -/
structure Config where
  uri : String := ""
  headers : List (String × String) := []
  disableCompression : Bool := false
  socketPath : Option String := none

/-- Call from src/unnamed/part_000, over the outcome of its single HTTP
exchange: build the request envelope with a fresh id; fail with an
internal error on transport failure; require HTTP status exactly 200,
otherwise fail carrying the observed and expected codes; fail on body
read or decode errors; check response id against the request id
case-insensitively, then the protocol versions; then surface a populated
server error object; otherwise return the result payload.  Exactly one
exchange happens per call: the whole outcome is one HttpResult value and
no branch retries. -/
def Config.Call (c : Config) (uuid method : String) (params : Jrpc2.Json)
    (exchange : HttpResult) : Except CallError Jrpc2.Json :=
  let reqObj := getRequestObject method params uuid
  match exchange with
  | HttpResult.doErr msg =>
      Except.error (CallError.internal (NewInternalError (some msg)))
  | HttpResult.response status body =>
    if status ≠ 200 then
      Except.error (CallError.internal
        ((NewInternalError none).SetHTTPStatusCodes status 200))
    else
      match body with
      | ReadResult.readErr msg =>
          Except.error (CallError.internal (NewInternalError (some msg)))
      | ReadResult.ok (RespDecode.fail msg) =>
          Except.error (CallError.internal (NewInternalError (some msg)))
      | ReadResult.ok (RespDecode.ok respObj) =>
          if eqFold reqObj.ID respObj.ID = false then
            Except.error (CallError.internal
              ((NewInternalError none).SetRPCIDs respObj.ID reqObj.ID))
          else if eqFold reqObj.Jsonrpc respObj.Jsonrpc = false then
            Except.error (CallError.internal
              ((NewInternalError none).SetProtocolVersions respObj.Jsonrpc reqObj.Jsonrpc))
          else
            match respObj.Error with
            | some eo => Except.error (CallError.rpc eo)
            | none => Except.ok respObj.Result

end Client


/-- A service with all-default configuration. -/
def svcPlain : Jrpc2.Service := {}

/-- A service configured with one custom static header. -/
def svcStatic : Jrpc2.Service := { headers := [("X-Static", "yes")] }

/-- A request whose body is the empty JSON batch array. -/
def envArray : Jrpc2.ReqEnv := { body := Jrpc2.Body.value (Jrpc2.Json.arr []) }

/-- A request whose method member is a JSON array. -/
def envMethodArray : Jrpc2.ReqEnv :=
  { body := Jrpc2.Body.value (Jrpc2.Json.obj
      [("jsonrpc", Jrpc2.Json.str "2.0"), ("method", Jrpc2.Json.arr []),
       ("id", Jrpc2.Json.str "1")]) }

/-- A request whose method member is a JSON number. -/
def envMethodNumber : Jrpc2.ReqEnv :=
  { body := Jrpc2.Body.value (Jrpc2.Json.obj
      [("jsonrpc", Jrpc2.Json.str "2.0"), ("method", Jrpc2.Json.num 5),
       ("id", Jrpc2.Json.str "1")]) }

/-- A well-formed request carrying JSON-RPC version 1.0. -/
def envBadVersion : Jrpc2.ReqEnv :=
  { body := Jrpc2.Body.value (Jrpc2.Json.obj
      [("jsonrpc", Jrpc2.Json.str "1.0"), ("method", Jrpc2.Json.str "m"),
       ("id", Jrpc2.Json.str "1")]) }

/-- A request whose id member is a JSON boolean. -/
def envBadID : Jrpc2.ReqEnv :=
  { body := Jrpc2.Body.value (Jrpc2.Json.obj
      [("jsonrpc", Jrpc2.Json.str "2.0"), ("method", Jrpc2.Json.str "m"),
       ("id", Jrpc2.Json.bool true)]) }

/-- A request on which the request hook fails without a custom code. -/
def envHookFail : Jrpc2.ReqEnv :=
  { reqHookErr := some ⟨none⟩, body := Jrpc2.Body.value Jrpc2.Json.null }

/-- The response object produced by the version-mismatch short circuit. -/
def versionMismatchResponse : Jrpc2.ResponseObject :=
  { Jrpc2.DefaultResponseObject with
      Error := some ⟨Jrpc2.InvalidRequestCode, Jrpc2.InvalidRequestMessage,
        "jsonrpc request member must be exactly 2.0"⟩ }

/-- A client configuration with all-default settings. -/
def cfgPlain : Client.Config := {}

/-- A decoded response envelope whose id does not match request id abc. -/
def respIdMismatch : Client.ResponseObject :=
  { Jsonrpc := "2.0", ID := "zzz" }

/-- A decoded response envelope with matching id but protocol version 1.0. -/
def respVerMismatch : Client.ResponseObject :=
  { Jsonrpc := "1.0", ID := "abc" }

/-- A decoded response envelope carrying a server error object and a
non-matching id. -/
def respErrIdMismatch : Client.ResponseObject :=
  { Jsonrpc := "2.0", ID := "zzz",
    Error := some ⟨Jrpc2.MethodNotFoundCode, Jrpc2.MethodNotFoundMessage, ""⟩ }

/-- A well-formed decodable response envelope for request id abc. -/
def respWellFormed : Client.ResponseObject :=
  { Jsonrpc := "2.0", ID := "abc" }

namespace Jrpc2

theorem firstStatus_setsOf_append (hs : List (String × String)) (l : List HttpEvent) :
    firstStatus (setsOf hs ++ l) = firstStatus l := by
  induction hs with
  | nil => rfl
  | cons kv rest ih => simpa [setsOf, firstStatus] using ih

theorem bodyBytes_setsOf_append (hs : List (String × String)) (l : List HttpEvent) :
    bodyBytes (setsOf hs ++ l) = bodyBytes l := by
  induction hs with
  | nil => rfl
  | cons kv rest ih => simpa [setsOf, bodyBytes] using ih

theorem setsOf_cons (kv : String × String) (rest : List (String × String)) :
    setsOf (kv :: rest) = HttpEvent.setHeader kv.1 kv.2 :: setsOf rest := rfl

theorem headerValue_cons_set (k v : String) (rest : List HttpEvent) (q : String) :
    headerValue (HttpEvent.setHeader k v :: rest) q =
      match headerValue rest q with
      | some w => some w
      | none => if k = q then some v else none := rfl

theorem headerValue_setsOf_append_of_notMem (hs : List (String × String))
    (l : List HttpEvent) (q : String) (hq : q ∉ hs.map Prod.fst) :
    headerValue (setsOf hs ++ l) q = headerValue l q := by
  induction hs with
  | nil => rfl
  | cons kv rest ih =>
      have hq1 : q ≠ kv.1 := by
        intro h
        exact hq (by simp [h])
      have hq2 : q ∉ rest.map Prod.fst := by
        intro h
        exact hq (by simp [h])
      rw [setsOf_cons, List.cons_append, headerValue_cons_set, ih hq2]
      cases hl : headerValue l q with
      | some w => rfl
      | none => exact if_neg (fun h => hq1 h.symm)

theorem headerValue_setsOf_append_of_some (hs : List (String × String))
    (l : List HttpEvent) (q w : String) (hl : headerValue l q = some w) :
    headerValue (setsOf hs ++ l) q = some w := by
  induction hs with
  | nil => simpa using hl
  | cons kv rest ih =>
      rw [setsOf_cons, List.cons_append, headerValue_cons_set, ih]

theorem headerValue_setsOf_append_of_mem (hs : List (String × String))
    (l : List HttpEvent) (q v : String) (hnodup : (hs.map Prod.fst).Nodup)
    (hmem : (q, v) ∈ hs) (hl : headerValue l q = none) :
    headerValue (setsOf hs ++ l) q = some v := by
  induction hs with
  | nil => cases hmem
  | cons kv rest ih =>
      have hnodup2 : (rest.map Prod.fst).Nodup := (List.nodup_cons.mp hnodup).2
      rw [setsOf_cons, List.cons_append, headerValue_cons_set]
      rcases List.mem_cons.mp hmem with heq | hmemRest
      · have hq : q ∉ rest.map Prod.fst := by
          have h1 := (List.nodup_cons.mp hnodup).1
          rw [← heq] at h1
          simpa using h1
        rw [headerValue_setsOf_append_of_notMem rest l q hq, hl, ← heq]
        simp
      · rw [ih hnodup2 hmemRest]

end Jrpc2

/-- C1: for every HTTP request whose body is a top-level JSON array and
which reaches the body decode stage, the dispatcher responds with the
batch-rejection NotImplemented error code, which differs from the generic
parse error code. -/
theorem claim_C1_batch_array_not_implemented (s : Jrpc2.Service) (env : Jrpc2.ReqEnv)
    (elems : List Jrpc2.Json)
    (hread : env.readErr = none) (hhook : env.reqHookErr = none)
    (hver : env.httpVersionOk = true) (hmeth : env.httpMethodOk = true)
    (hhdr : env.httpHeadersOk = true)
    (hbody : env.body = Jrpc2.Body.value (Jrpc2.Json.arr elems)) :
    s.serveDispatch env = Jrpc2.DispatchResult.reply
      { Jrpc2.DefaultResponseObject with
          Error := some ⟨Jrpc2.NotImplementedCode, Jrpc2.NotImplementedMessage,
            "batch requests not supported"⟩ } ∧
    Jrpc2.NotImplementedCode ≠ Jrpc2.ParseErrorCode := by
  obtain ⟨re, rh, v1, m1, h1, bd⟩ := env
  dsimp only at hread hhook hver hmeth hhdr hbody
  subst hread hhook hver hmeth hhdr hbody
  exact ⟨rfl, by decide⟩

/-- C1 witness: the concrete empty batch array body. -/
theorem claim_C1_witness :
    Jrpc2.Service.serveDispatch svcPlain envArray = Jrpc2.DispatchResult.reply
      { Jrpc2.DefaultResponseObject with
          Error := some ⟨Jrpc2.NotImplementedCode, Jrpc2.NotImplementedMessage,
            "batch requests not supported"⟩ } ∧
    Jrpc2.NotImplementedCode ≠ Jrpc2.ParseErrorCode :=
  claim_C1_batch_array_not_implemented svcPlain envArray [] rfl rfl rfl rfl rfl rfl

/-- C4: for every response object marked as a notification, transmission
writes HTTP status 204 and zero body bytes, whatever error object was set
on the response and whatever the service configuration is. -/
theorem claim_C4_notification_204_no_body (s : Jrpc2.Service)
    (respObj : Jrpc2.ResponseObject) (h : respObj.notification = true) :
    Jrpc2.firstStatus (s.WriteRespose respObj) = some 204 ∧
    Jrpc2.bodyBytes (s.WriteRespose respObj) = "" := by
  unfold Jrpc2.Service.WriteRespose
  rw [h]
  simp only [if_true]
  rw [List.append_assoc]
  constructor
  · rw [Jrpc2.firstStatus_setsOf_append, Jrpc2.firstStatus_setsOf_append]
    rfl
  · rw [Jrpc2.bodyBytes_setsOf_append, Jrpc2.bodyBytes_setsOf_append]
    rfl

/-- C4 witness: a notification response that carries an error object,
transmitted through a service with a static header. -/
theorem claim_C4_witness :
    Jrpc2.firstStatus (Jrpc2.Service.WriteRespose svcStatic
      { notification := true,
        Error := some ⟨Jrpc2.ParseErrorCode, Jrpc2.ParseErrorMessage, "x"⟩ }) = some 204 ∧
    Jrpc2.bodyBytes (Jrpc2.Service.WriteRespose svcStatic
      { notification := true,
        Error := some ⟨Jrpc2.ParseErrorCode, Jrpc2.ParseErrorMessage, "x"⟩ }) = "" :=
  claim_C4_notification_204_no_body svcStatic
    { notification := true,
      Error := some ⟨Jrpc2.ParseErrorCode, Jrpc2.ParseErrorMessage, "x"⟩ } rfl

/-- C7: transmission sets the static service headers first and the
dynamic response headers second, each with last-wins Set semantics, so a
name defined by the dynamic headers (whose keys are unique, as they come
from a Go map) ends up with the dynamic value even when the static
headers also define it. -/
theorem claim_C7_dynamic_header_overrides (s : Jrpc2.Service)
    (respObj : Jrpc2.ResponseObject) (k v : String)
    (hnodup : (respObj.headers.map Prod.fst).Nodup)
    (hmem : (k, v) ∈ respObj.headers) :
    Jrpc2.headerValue (s.WriteRespose respObj) k = some v := by
  unfold Jrpc2.Service.WriteRespose
  have hdyn : ∀ tail : List Jrpc2.HttpEvent, Jrpc2.headerValue tail k = none →
      Jrpc2.headerValue ((Jrpc2.setsOf s.headers ++ Jrpc2.setsOf respObj.headers) ++ tail) k
        = some v := by
    intro tail htail
    rw [List.append_assoc]
    exact Jrpc2.headerValue_setsOf_append_of_some s.headers _ k v
      (Jrpc2.headerValue_setsOf_append_of_mem respObj.headers tail k v hnodup hmem htail)
  cases hn : respObj.notification with
  | true => simpa using hdyn [Jrpc2.HttpEvent.writeHeader 204] rfl
  | false =>
    simp only [if_false, Bool.false_eq_true, ite_false]
    cases hr : s.resp respObj.Marshal with
    | some e => exact hdyn [Jrpc2.HttpEvent.writeHeader (Jrpc2.getHTTPCodeFromHookError e)] rfl
    | none =>
      cases hw : s.writeErr with
      | true =>
        simp only [if_true]
        exact hdyn [Jrpc2.HttpEvent.writeHeader respObj.statusCode,
          Jrpc2.HttpEvent.writeHeader 500] rfl
      | false =>
        simp only [Bool.false_eq_true, ite_false]
        exact hdyn [Jrpc2.HttpEvent.writeHeader respObj.statusCode,
          Jrpc2.HttpEvent.writeBody respObj.Marshal] rfl

/-- C7 witness: static and dynamic headers that both define the name A;
the transmitted value is the dynamic one. -/
theorem claim_C7_witness :
    Jrpc2.headerValue (Jrpc2.Service.WriteRespose { headers := [("A", "static")] }
      { headers := [("A", "dynamic")] }) "A" = some "dynamic" :=
  claim_C7_dynamic_header_overrides { headers := [("A", "static")] }
    { headers := [("A", "dynamic")] } "A" "dynamic" (by simp) (by simp)

/-- Helper: once the dispatch pipeline produced a reply, ServeHTTP is the
transmission of exactly that response object. -/
theorem ServeHTTP_of_reply (s : Jrpc2.Service) (env : Jrpc2.ReqEnv)
    (r : Jrpc2.ResponseObject) (h : s.serveDispatch env = Jrpc2.DispatchResult.reply r) :
    s.ServeHTTP env = s.WriteRespose r := by
  unfold Jrpc2.Service.ServeHTTP
  rw [h]

/-- Helper: a non-notification response whose hook accepts it is written
with its own status code first. -/
theorem firstStatus_WriteRespose (s : Jrpc2.Service) (r : Jrpc2.ResponseObject)
    (hn : r.notification = false) (hh : s.resp r.Marshal = none) :
    Jrpc2.firstStatus (s.WriteRespose r) = some r.statusCode := by
  unfold Jrpc2.Service.WriteRespose
  rw [hn]
  dsimp only
  rw [hh]
  cases hw : s.writeErr with
  | true =>
      simp only [Bool.false_eq_true, ite_false, if_true]
      rw [List.append_assoc, Jrpc2.firstStatus_setsOf_append, Jrpc2.firstStatus_setsOf_append]
      rfl
  | false =>
      simp only [Bool.false_eq_true, ite_false]
      rw [List.append_assoc, Jrpc2.firstStatus_setsOf_append, Jrpc2.firstStatus_setsOf_append]
      rfl

/-- C2: for every well-formed request whose JSON-RPC version member
differs from the literal 2.0, the dispatcher replies with the
invalid-request error on HTTP status 200, and the reply is one fixed
value for every method registry, so Service.Call is never consulted. -/
theorem claim_C2_version_mismatch_rejected (s : Jrpc2.Service)
    (g : String → Jrpc2.Json → Except Jrpc2.ErrorObject Jrpc2.Json)
    (env : Jrpc2.ReqEnv) (reqObj : Jrpc2.RequestObject)
    (hread : env.readErr = none) (hhook : env.reqHookErr = none)
    (hver : env.httpVersionOk = true) (hmeth : env.httpMethodOk = true)
    (hhdr : env.httpHeadersOk = true)
    (hdec : Jrpc2.decodeBody env.body = Jrpc2.DecodeResult.ok reqObj)
    (hjson : reqObj.Jsonrpc ≠ "2.0")
    (hresp : s.resp versionMismatchResponse.Marshal = none) :
    Jrpc2.Service.serveDispatch { s with call := g } env =
      Jrpc2.DispatchResult.reply versionMismatchResponse ∧
    versionMismatchResponse.statusCode = 200 ∧
    versionMismatchResponse.Error = some ⟨Jrpc2.InvalidRequestCode,
      Jrpc2.InvalidRequestMessage, "jsonrpc request member must be exactly 2.0"⟩ ∧
    Jrpc2.firstStatus (Jrpc2.Service.ServeHTTP { s with call := g } env) = some 200 := by
  obtain ⟨re, rh, v1, m1, h1, bd⟩ := env
  dsimp only at hread hhook hver hmeth hhdr hdec
  subst hread hhook hver hmeth hhdr
  have hdisp : Jrpc2.Service.serveDispatch { s with call := g }
      { readErr := none, reqHookErr := none, httpVersionOk := true, httpMethodOk := true,
        httpHeadersOk := true, body := bd } =
      Jrpc2.DispatchResult.reply versionMismatchResponse := by
    unfold Jrpc2.Service.serveDispatch
    dsimp only
    rw [hdec]
    dsimp only [Jrpc2.ResponseObject.ValidateJSONRPCVersionNumber]
    rw [if_neg hjson]
    rfl
  refine ⟨hdisp, rfl, rfl, ?_⟩
  rw [ServeHTTP_of_reply _ _ _ hdisp]
  exact firstStatus_WriteRespose _ _ rfl hresp

/-- C2 witness: a concrete version 1.0 request against a default
service. -/
theorem claim_C2_witness :
    Jrpc2.Service.serveDispatch { svcPlain with call := svcPlain.call } envBadVersion =
      Jrpc2.DispatchResult.reply versionMismatchResponse ∧
    versionMismatchResponse.statusCode = 200 ∧
    versionMismatchResponse.Error = some ⟨Jrpc2.InvalidRequestCode,
      Jrpc2.InvalidRequestMessage, "jsonrpc request member must be exactly 2.0"⟩ ∧
    Jrpc2.firstStatus (Jrpc2.Service.ServeHTTP { svcPlain with call := svcPlain.call }
      envBadVersion) = some 200 :=
  claim_C2_version_mismatch_rejected svcPlain svcPlain.call envBadVersion
    { Jsonrpc := "1.0", Method := "m", ID := some (Jrpc2.Json.str "1") }
    rfl rfl rfl rfl rfl rfl (by decide) rfl

/-- C6 counterexample: the request-hook failure path does not route
through WriteRespose.  With a service configured with one static header,
a request whose hook fails yields only a bare 500 status with no header
Set at all, although transmitting any response through WriteRespose for
this service would have applied the static header. -/
theorem claim_C6_counterexample :
    svcStatic.headers = [("X-Static", "yes")] ∧
    Jrpc2.Service.ServeHTTP svcStatic envHookFail = [Jrpc2.HttpEvent.writeHeader 500] ∧
    Jrpc2.headerValue (Jrpc2.Service.ServeHTTP svcStatic envHookFail) "X-Static" = none ∧
    Jrpc2.headerValue (Jrpc2.Service.WriteRespose svcStatic Jrpc2.DefaultResponseObject)
      "X-Static" = some "yes" :=
  ⟨rfl, rfl, rfl, rfl⟩

/-- C6 (amended): every short-circuiting failure except the request-hook
failure routes its response through the transmission function, so the
configured headers and status codes are applied there; the request-hook
failure path instead writes only a bare hook-supplied HTTP status and
bypasses transmission. -/
theorem claim_C6_transmission_paths (s : Jrpc2.Service) (env : Jrpc2.ReqEnv) :
    (env.reqHookErr = none →
      ∃ r, s.serveDispatch env = Jrpc2.DispatchResult.reply r ∧
        s.ServeHTTP env = s.WriteRespose r) ∧
    (∀ msg, env.readErr = some msg →
      ∃ r, s.serveDispatch env = Jrpc2.DispatchResult.reply r ∧
        s.ServeHTTP env = s.WriteRespose r) ∧
    (∀ e, env.readErr = none → env.reqHookErr = some e →
      s.ServeHTTP env = [Jrpc2.HttpEvent.writeHeader (Jrpc2.getHTTPCodeFromHookError e)]) := by
  refine ⟨?_, ?_, ?_⟩
  · intro hhook
    have hrep : ∃ r, s.serveDispatch env = Jrpc2.DispatchResult.reply r := by
      unfold Jrpc2.Service.serveDispatch
      rw [hhook]
      cases env.readErr with
      | some msg => exact ⟨_, rfl⟩
      | none =>
          dsimp only
          repeat first
            | exact ⟨_, rfl⟩
            | split
    obtain ⟨r, hr⟩ := hrep
    exact ⟨r, hr, ServeHTTP_of_reply s env r hr⟩
  · intro msg hread
    have hrep : ∃ r, s.serveDispatch env = Jrpc2.DispatchResult.reply r := by
      unfold Jrpc2.Service.serveDispatch
      rw [hread]
      exact ⟨_, rfl⟩
    obtain ⟨r, hr⟩ := hrep
    exact ⟨r, hr, ServeHTTP_of_reply s env r hr⟩
  · intro e hread hhook
    unfold Jrpc2.Service.ServeHTTP Jrpc2.Service.serveDispatch
    rw [hread, hhook]

/-- C6 witness: a concrete parse-failure short circuit is transmitted
through WriteRespose, and a concrete hook failure writes the bare
status. -/
theorem claim_C6_witness :
    (∃ r, Jrpc2.Service.serveDispatch svcStatic envArray = Jrpc2.DispatchResult.reply r ∧
      Jrpc2.Service.ServeHTTP svcStatic envArray = Jrpc2.Service.WriteRespose svcStatic r) ∧
    Jrpc2.Service.ServeHTTP svcStatic envHookFail =
      [Jrpc2.HttpEvent.writeHeader (Jrpc2.getHTTPCodeFromHookError ⟨none⟩)] :=
  ⟨(claim_C6_transmission_paths svcStatic envArray).1 rfl,
   (claim_C6_transmission_paths svcStatic envHookFail).2.2 ⟨none⟩ rfl rfl⟩

/-- C8 counterexample: a request whose method member is a JSON array is a
decode failure at the method field (the type error names field method),
yet the dispatcher answers with the batch-rejection NotImplemented code,
not the dedicated invalid-method code: the value class array is tested
before the field name. -/
theorem claim_C8_counterexample :
    Jrpc2.decodeBody envMethodArray.body = Jrpc2.DecodeResult.typeErr "array" "method" ∧
    Jrpc2.Service.serveDispatch svcPlain envMethodArray = Jrpc2.DispatchResult.reply
      { Jrpc2.DefaultResponseObject with
          Error := some ⟨Jrpc2.NotImplementedCode, Jrpc2.NotImplementedMessage,
            "batch requests not supported"⟩ } ∧
    Jrpc2.NotImplementedCode ≠ Jrpc2.InvalidMethodCode :=
  ⟨rfl, rfl, by decide⟩

/-- C8 (amended): for every request whose decode fails with a type error
at the method field whose offending value is not an array, the dispatcher
responds with the dedicated invalid-method error, distinct from the
generic parse error; when the offending method value is an array, the
batch-rejection branch takes precedence instead. -/
theorem claim_C8_invalid_method_type (s : Jrpc2.Service) (env : Jrpc2.ReqEnv) (tv : String)
    (hread : env.readErr = none) (hhook : env.reqHookErr = none)
    (hver : env.httpVersionOk = true) (hmeth : env.httpMethodOk = true)
    (hhdr : env.httpHeadersOk = true)
    (hdec : Jrpc2.decodeBody env.body = Jrpc2.DecodeResult.typeErr tv "method")
    (harr : tv ≠ "array") :
    s.serveDispatch env = Jrpc2.DispatchResult.reply
      { Jrpc2.DefaultResponseObject with
          Error := some ⟨Jrpc2.InvalidMethodCode, Jrpc2.InvalidMethodMessage,
            "method data type must be string"⟩ } ∧
    Jrpc2.InvalidMethodCode ≠ Jrpc2.ParseErrorCode := by
  obtain ⟨re, rh, v1, m1, h1, bd⟩ := env
  dsimp only at hread hhook hver hmeth hhdr hdec
  subst hread hhook hver hmeth hhdr
  refine ⟨?_, by decide⟩
  unfold Jrpc2.Service.serveDispatch
  dsimp only
  rw [hdec]
  dsimp only
  rw [if_neg harr]
  rfl

/-- C8 witness: a concrete request whose method member is a JSON
number. -/
theorem claim_C8_witness :
    Jrpc2.Service.serveDispatch svcPlain envMethodNumber = Jrpc2.DispatchResult.reply
      { Jrpc2.DefaultResponseObject with
          Error := some ⟨Jrpc2.InvalidMethodCode, Jrpc2.InvalidMethodMessage,
            "method data type must be string"⟩ } ∧
    Jrpc2.InvalidMethodCode ≠ Jrpc2.ParseErrorCode :=
  claim_C8_invalid_method_type svcPlain envMethodNumber "number"
    rfl rfl rfl rfl rfl rfl (by decide)

/-- C9: for every decoded request whose id member has an unsupported JSON
type, the dispatcher replies with the identifier error produced by id
coercion; the response is not a notification, and it is addressed to the
null id, the best-known id once the supplied id has failed validation
(the invalid id value is never copied into the response). -/
theorem claim_C9_invalid_id_addressed (s : Jrpc2.Service) (env : Jrpc2.ReqEnv)
    (reqObj : Jrpc2.RequestObject) (errObj : Jrpc2.ErrorObject)
    (hread : env.readErr = none) (hhook : env.reqHookErr = none)
    (hver : env.httpVersionOk = true) (hmeth : env.httpMethodOk = true)
    (hhdr : env.httpHeadersOk = true)
    (hdec : Jrpc2.decodeBody env.body = Jrpc2.DecodeResult.ok reqObj)
    (hjson : reqObj.Jsonrpc = "2.0")
    (hid : (Jrpc2.ConvertIDtoString reqObj.ID).2 = some errObj) :
    s.serveDispatch env = Jrpc2.DispatchResult.reply
      { Jrpc2.DefaultResponseObject with Error := some errObj } ∧
    ({ Jrpc2.DefaultResponseObject with Error := some errObj } : Jrpc2.ResponseObject).ID
      = none ∧
    ({ Jrpc2.DefaultResponseObject with
        Error := some errObj } : Jrpc2.ResponseObject).notification = false := by
  obtain ⟨re, rh, v1, m1, h1, bd⟩ := env
  dsimp only at hread hhook hver hmeth hhdr hdec
  subst hread hhook hver hmeth hhdr
  refine ⟨?_, rfl, rfl⟩
  unfold Jrpc2.Service.serveDispatch
  dsimp only
  rw [hdec]
  dsimp only [Jrpc2.ResponseObject.ValidateJSONRPCVersionNumber]
  rw [if_pos hjson]
  dsimp only
  rw [hid]
  rfl

/-- C9 witness: a concrete request with a boolean id. -/
theorem claim_C9_witness :
    Jrpc2.Service.serveDispatch svcPlain envBadID = Jrpc2.DispatchResult.reply
      { Jrpc2.DefaultResponseObject with
          Error := some ⟨Jrpc2.InvalidRequestCode, Jrpc2.InvalidRequestMessage,
            "ID data type must be string or number, got bool"⟩ } ∧
    ({ Jrpc2.DefaultResponseObject with
        Error := some ⟨Jrpc2.InvalidRequestCode, Jrpc2.InvalidRequestMessage,
          "ID data type must be string or number, got bool"⟩ } :
        Jrpc2.ResponseObject).ID = none ∧
    ({ Jrpc2.DefaultResponseObject with
        Error := some ⟨Jrpc2.InvalidRequestCode, Jrpc2.InvalidRequestMessage,
          "ID data type must be string or number, got bool"⟩ } :
        Jrpc2.ResponseObject).notification = false :=
  claim_C9_invalid_id_addressed svcPlain envBadID
    { Jsonrpc := "2.0", Method := "m", ID := some (Jrpc2.Json.bool true) }
    ⟨Jrpc2.InvalidRequestCode, Jrpc2.InvalidRequestMessage,
      "ID data type must be string or number, got bool"⟩
    rfl rfl rfl rfl rfl rfl rfl rfl

/-- Helper: a decodable 200 response whose id does not match the request
id case-insensitively makes Call fail with the id-mismatch internal
error carrying the observed and expected ids. -/
theorem Call_id_mismatch (c : Client.Config) (uuid method : String)
    (params : Jrpc2.Json) (respObj : Client.ResponseObject)
    (hid : Client.eqFold uuid respObj.ID = false) :
    c.Call uuid method params (Client.HttpResult.response 200
      (Client.ReadResult.ok (Client.RespDecode.ok respObj))) =
      Except.error (Client.CallError.internal
        ((Client.NewInternalError none).SetRPCIDs respObj.ID uuid)) := by
  unfold Client.Config.Call
  dsimp only [Client.getRequestObject]
  rw [if_neg (by simp), hid]
  rfl

/-- Helper: a decodable 200 response with matching id but a protocol
version that is not 2.0 makes Call fail with the version-mismatch
internal error carrying the observed and expected versions. -/
theorem Call_version_mismatch (c : Client.Config) (uuid method : String)
    (params : Jrpc2.Json) (respObj : Client.ResponseObject)
    (hid : Client.eqFold uuid respObj.ID = true)
    (hv : Client.eqFold "2.0" respObj.Jsonrpc = false) :
    c.Call uuid method params (Client.HttpResult.response 200
      (Client.ReadResult.ok (Client.RespDecode.ok respObj))) =
      Except.error (Client.CallError.internal
        ((Client.NewInternalError none).SetProtocolVersions respObj.Jsonrpc "2.0")) := by
  unfold Client.Config.Call
  dsimp only [Client.getRequestObject]
  rw [if_neg (by simp), hid, hv]
  rfl

/-- C3: for every client call whose HTTP response status is not 200, Call
returns the internal error carrying the observed and the expected status
codes; the result is the same for every possible response body, so the
body is never parsed as an envelope, and the one exchange of the call is
the only one consumed. -/
theorem claim_C3_non_ok_status (c : Client.Config) (uuid method : String)
    (params : Jrpc2.Json) (status : Nat) (body : Client.ReadResult)
    (h : status ≠ 200) :
    c.Call uuid method params (Client.HttpResult.response status body) =
      Except.error (Client.CallError.internal
        ((Client.NewInternalError none).SetHTTPStatusCodes status 200)) := by
  unfold Client.Config.Call
  dsimp only
  rw [if_pos h]

/-- C3 witness: a 503 response with a perfectly decodable body still
yields the internal error carrying observed 503 and expected 200. -/
theorem claim_C3_witness :
    Client.Config.Call cfgPlain "abc" "m" Jrpc2.Json.null
      (Client.HttpResult.response 503
        (Client.ReadResult.ok (Client.RespDecode.ok respWellFormed))) =
      Except.error (Client.CallError.internal
        ((Client.NewInternalError none).SetHTTPStatusCodes 503 200)) :=
  claim_C3_non_ok_status cfgPlain "abc" "m" Jrpc2.Json.null 503
    (Client.ReadResult.ok (Client.RespDecode.ok respWellFormed)) (by decide)

/-- C5: for every decodable 200 response envelope, Call checks the
response id against the request id case-insensitively and the protocol
version against the request version 2.0; a mismatch on the id, or a
matching id with a mismatched version, each fails with the dedicated
error carrying the observed and expected values. -/
theorem claim_C5_correlation_checks (c : Client.Config) (uuid method : String)
    (params : Jrpc2.Json) (respObj : Client.ResponseObject) :
    (Client.eqFold uuid respObj.ID = false →
      c.Call uuid method params (Client.HttpResult.response 200
        (Client.ReadResult.ok (Client.RespDecode.ok respObj))) =
        Except.error (Client.CallError.internal
          ((Client.NewInternalError none).SetRPCIDs respObj.ID uuid))) ∧
    (Client.eqFold uuid respObj.ID = true →
      Client.eqFold "2.0" respObj.Jsonrpc = false →
      c.Call uuid method params (Client.HttpResult.response 200
        (Client.ReadResult.ok (Client.RespDecode.ok respObj))) =
        Except.error (Client.CallError.internal
          ((Client.NewInternalError none).SetProtocolVersions respObj.Jsonrpc "2.0"))) :=
  ⟨fun hid => Call_id_mismatch c uuid method params respObj hid,
   fun hid hv => Call_version_mismatch c uuid method params respObj hid hv⟩

/-- C5 witness: request id abc against response id zzz, and a matching id
against response protocol version 1.0. -/
theorem claim_C5_witness :
    Client.Config.Call cfgPlain "abc" "m" Jrpc2.Json.null
      (Client.HttpResult.response 200
        (Client.ReadResult.ok (Client.RespDecode.ok respIdMismatch))) =
      Except.error (Client.CallError.internal
        ((Client.NewInternalError none).SetRPCIDs "zzz" "abc")) ∧
    Client.Config.Call cfgPlain "abc" "m" Jrpc2.Json.null
      (Client.HttpResult.response 200
        (Client.ReadResult.ok (Client.RespDecode.ok respVerMismatch))) =
      Except.error (Client.CallError.internal
        ((Client.NewInternalError none).SetProtocolVersions "1.0" "2.0")) :=
  ⟨(claim_C5_correlation_checks cfgPlain "abc" "m" Jrpc2.Json.null respIdMismatch).1
      (by decide),
   (claim_C5_correlation_checks cfgPlain "abc" "m" Jrpc2.Json.null respVerMismatch).2
      (by decide) (by decide)⟩

/-- C10: the id correlation check runs before the error member is
inspected: a decodable 200 response that carries a populated error object
but a non-matching id makes Call return the id-mismatch internal error,
not the server-supplied error object. -/
theorem claim_C10_id_check_precedes_error (c : Client.Config) (uuid method : String)
    (params : Jrpc2.Json) (respObj : Client.ResponseObject) (eo : Jrpc2.ErrorObject)
    (herr : respObj.Error = some eo)
    (hid : Client.eqFold uuid respObj.ID = false) :
    c.Call uuid method params (Client.HttpResult.response 200
      (Client.ReadResult.ok (Client.RespDecode.ok respObj))) =
      Except.error (Client.CallError.internal
        ((Client.NewInternalError none).SetRPCIDs respObj.ID uuid)) ∧
    c.Call uuid method params (Client.HttpResult.response 200
      (Client.ReadResult.ok (Client.RespDecode.ok respObj))) ≠
      Except.error (Client.CallError.rpc eo) := by
  have h1 := Call_id_mismatch c uuid method params respObj hid
  refine ⟨h1, ?_⟩
  rw [h1]
  simp

/-- C10 witness: a response with a method-not-found error object and id
zzz against request id abc. -/
theorem claim_C10_witness :
    Client.Config.Call cfgPlain "abc" "m" Jrpc2.Json.null
      (Client.HttpResult.response 200
        (Client.ReadResult.ok (Client.RespDecode.ok respErrIdMismatch))) =
      Except.error (Client.CallError.internal
        ((Client.NewInternalError none).SetRPCIDs "zzz" "abc")) ∧
    Client.Config.Call cfgPlain "abc" "m" Jrpc2.Json.null
      (Client.HttpResult.response 200
        (Client.ReadResult.ok (Client.RespDecode.ok respErrIdMismatch))) ≠
      Except.error (Client.CallError.rpc
        ⟨Jrpc2.MethodNotFoundCode, Jrpc2.MethodNotFoundMessage, ""⟩) :=
  claim_C10_id_check_precedes_error cfgPlain "abc" "m" Jrpc2.Json.null respErrIdMismatch
    ⟨Jrpc2.MethodNotFoundCode, Jrpc2.MethodNotFoundMessage, ""⟩ rfl (by decide)
